import Mathlib

/-!
Shallow embedding of the style-variant composition and element-polymorphism
resolution engine of the social-work-website repository: the ActionButton /
ActionButtons components (src/unnamed/part_000), the Button component and its
cva variant table (src/components/ui/Button.tsx), and the PageLayout
composition (src/components/Layout/PageLayout.tsx).  JavaScript optional
string values are embedded as Option String; JavaScript truthiness of a
string is non-emptiness.
-/

/-- Truthiness of an optional JavaScript string: undefined and the empty
string are falsy, every other string is truthy. -/
def strTruthy : Option String → Bool
| none => false
| some s => s != ""

/-- The JavaScript expression a OR b on optional strings: a when a is
truthy, otherwise b. -/
def jsOrStr (a b : Option String) : Option String :=
if strTruthy a then a else b

/-- The JavaScript expression n OR d on an optional number, as used in
width={icon.width OR 20}: undefined and 0 are falsy and fall back to d. -/
def jsOrNat (a : Option Nat) (d : Nat) : Nat :=
match a with
| some n => if n = 0 then d else n
| none => d

/-- Modelled from the spec: the class-merging utility cn (the ClassComposer,
imported from the module lib/utils which is not among the repository files
provided under src/).  Per the spec, section 4.2: fragments are appended in
order, empty or undefined fragments are dropped silently, the literal class
tokens of the raw final string are deduplicated keeping the last occurrence
of each token, and the result is one space-joined string. -/
def dedupeLast (l : List String) : List String :=
l.foldr (fun x acc => if x ∈ acc then acc else x :: acc) []

/-- Space-separated tokens of one class fragment, split on the character
level. -/
def classTokens (s : String) : List String :=
((s.data.splitOn ' ').map String.mk).filter (fun t => t != "")

/-- Modelled from the spec: token list of the composed class string, see
dedupeLast and cn. -/
def cnTokens (parts : List String) : List String :=
dedupeLast ((parts.filter (fun s => s != "")).flatMap classTokens)

/-- Modelled from the spec: the composed class string, see dedupeLast. -/
def cn (parts : List String) : String :=
String.intercalate " " (cnTokens parts)

/-!
LinkSemanticsResolver: the link-semantics block of ActionButton
(src/unnamed/part_000 lines 134-138).
-/

/-- The link-relevant inputs of an ActionButtonConfig: href is required,
external defaults to false, target and rel are optional. -/
structure LinkInput where
href : String
external : Bool := false
target : Option String := none
rel : Option String := none
deriving DecidableEq

/-- The JavaScript method href.startsWith(pre): pre is a prefix of the
character sequence of href. -/
def jsStartsWith (s pre : String) : Bool :=
pre.data.isPrefixOf s.data

/-- Line 134: const isExternal = external OR href.startsWith('http') OR
href.startsWith('//'). -/
def isExternal (cfg : LinkInput) : Bool :=
cfg.external || jsStartsWith cfg.href "http" || jsStartsWith cfg.href "//"

/-- Line 137: const finalTarget = target OR (isExternal ? '_blank' :
undefined). -/
def finalTarget (cfg : LinkInput) : Option String :=
jsOrStr cfg.target (if isExternal cfg then some "_blank" else none)

/-- Line 138: const finalRel = rel OR (isExternal ? 'noopener noreferrer' :
undefined). -/
def finalRel (cfg : LinkInput) : Option String :=
jsOrStr cfg.rel (if isExternal cfg then some "noopener noreferrer" else none)

/-- Claim C2: external-link detection returns true exactly when the explicit
external flag is set, or the href starts with "http", or the href starts
with "//"; in particular the four quoted examples of the spec hold. -/
theorem isExternal_characterization :
    (∀ href ext tgt rel,
        isExternal { href := href, external := ext, target := tgt, rel := rel } = true
          ↔ (ext = true ∨ jsStartsWith href "http" = true ∨ jsStartsWith href "//" = true))
  ∧ isExternal { href := "https://a.com" } = true
  ∧ isExternal { href := "//a.com" } = true
  ∧ isExternal { href := "/local" } = false
  ∧ isExternal { href := "/local", external := true } = true := by
  refine ⟨?_, by decide, by decide, by decide, by decide⟩
  intro href ext tgt rel
  simp [isExternal, Bool.or_eq_true, or_assoc]

/-- Claim C1, counterexample: with href "/local", an explicit target
"_blank" and no explicit rel, the resolved target is the new-context value
"_blank" while the resolved rel is undefined, so it is empty and contains
no opener-isolating value. -/
theorem explicitBlankTarget_dropsRel_cex :
    finalTarget { href := "/local", target := some "_blank" } = some "_blank"
  ∧ ({ href := "/local", target := some "_blank" } : LinkInput).rel = none
  ∧ finalRel { href := "/local", target := some "_blank" } = none := by decide

/-- Claim C1 (amended): whenever the link is detected as external, which
covers every resolution in which target auto-derives to the new-context
value "_blank", and the caller supplied no explicit rel, the resolved rel
is the opener-isolating value "noopener noreferrer"; when the caller
supplies an explicit target on a non-external href the rel default does
not fire. -/
theorem finalRel_noopener_of_external (cfg : LinkInput)
    (h1 : isExternal cfg = true) (h2 : cfg.rel = none) :
    finalRel cfg = some "noopener noreferrer" := by
  simp [finalRel, jsOrStr, strTruthy, h1, h2]

/-- Witness for the amended claim C1 at the external href "https://a.com"
with no explicit rel. -/
theorem finalRel_noopener_of_external_witness :
    finalRel { href := "https://a.com" } = some "noopener noreferrer" :=
finalRel_noopener_of_external { href := "https://a.com" } (by decide) rfl

/-- Claim C7, counterexample: a caller-supplied explicit target equal to
the empty string is not used unchanged: on an external href the resolved
target is the auto-derived "_blank" instead, because the JavaScript OR
tests truthiness, not presence. -/
theorem emptyExplicitTarget_overridden_cex :
    ({ href := "https://a.com", target := some "" } : LinkInput).target = some ""
  ∧ finalTarget { href := "https://a.com", target := some "" } = some "_blank" := by decide

/-- Claim C7 (amended): a caller-supplied non-empty explicit target is used
unchanged as the resolved target, taking precedence over the auto-derived
target regardless of whether the link is detected as external; an explicit
empty-string target is treated as absent. -/
theorem explicitTarget_wins (cfg : LinkInput) (t : String)
    (h1 : cfg.target = some t) (h2 : t ≠ "") :
    finalTarget cfg = some t := by
  simp [finalTarget, jsOrStr, strTruthy, h1, h2]

/-- Witness for the amended claim C7: an explicit target "_self" on an
external href is kept even though the auto-derived target would be
"_blank". -/
theorem explicitTarget_wins_witness :
    finalTarget { href := "https://a.com", target := some "_self" } = some "_self" :=
explicitTarget_wins { href := "https://a.com", target := some "_self" } "_self" rfl (by decide)

/-!
The Button component and its cva variant table
(src/components/ui/Button.tsx).
-/

/-- The variant dimension of buttonVariants, Button.tsx lines 11-16. -/
inductive Variant
| primary
| secondary
| ghost
| link
deriving DecidableEq

/-- The size dimension of buttonVariants, Button.tsx lines 17-22. -/
inductive Size
| sm
| default
| lg
| icon
deriving DecidableEq

/-- The width dimension of buttonVariants, Button.tsx lines 23-27. -/
inductive Width
| auto
| full
| fixed
deriving DecidableEq

/-- Base classes of buttonVariants, Button.tsx line 8. -/
def baseClasses : String :=
"inline-flex items-center justify-center gap-2 rounded-full border border-solid transition-colors font-medium focus-visible:outline-none focus-visible:ring-2 focus-visible:ring-ring focus-visible:ring-offset-2 disabled:pointer-events-none disabled:opacity-50"

/-- Class fragment of each variant value, Button.tsx lines 11-16. -/
def variantFragment : Variant → String
| .primary => "bg-foreground text-background border-transparent hover:bg-[#383838] dark:hover:bg-[#ccc]"
| .secondary => "border-black/[.08] dark:border-white/[.145] hover:bg-[#f2f2f2] dark:hover:bg-[#1a1a1a] hover:border-transparent"
| .ghost => "border-transparent hover:bg-accent hover:text-accent-foreground"
| .link => "border-transparent underline-offset-4 hover:underline text-primary"

/-- Class fragment of each size value, Button.tsx lines 17-22. -/
def sizeFragment : Size → String
| .sm => "h-9 px-3 text-sm"
| .default => "h-10 px-4 text-sm sm:h-12 sm:px-5 sm:text-base"
| .lg => "h-11 px-8 text-base"
| .icon => "h-10 w-10"

/-- Class fragment of each width value, Button.tsx lines 23-27. -/
def widthFragment : Width → String
| .auto => "w-auto"
| .full => "w-full"
| .fixed => "w-full sm:w-auto md:w-[158px]"

/-- The cva call buttonVariants, Button.tsx lines 6-35: base classes, then
one fragment per dimension where an omitted dimension value falls back to
the declared defaultVariants entry (variant primary, size default, width
auto), then the caller className last. -/
def buttonVariants (variant : Option Variant) (size : Option Size)
    (width : Option Width) (className : Option String) : String :=
cn ([baseClasses,
     variantFragment (variant.getD Variant.primary),
     sizeFragment (size.getD Size.default),
     widthFragment (width.getD Width.auto)] ++ className.toList)

/-- Icon position of ButtonProps, default left, Button.tsx line 61. -/
inductive IconPosition
| left
| right
deriving DecidableEq

/-- The render-relevant props of the Button component, Button.tsx lines
50-66, with the destructuring defaults of the source. The icon prop is an
opaque React node; the embedding keeps only its presence. -/
structure ButtonProps where
variant : Option Variant := none
size : Option Size := none
width : Option Width := none
href : Option String := none
target : Option String := none
rel : Option String := none
hasIcon : Bool := false
iconPosition : IconPosition := IconPosition.left
loading : Bool := false
loadingText : Option String := none
disabled : Bool := false
className : Option String := none
deriving DecidableEq

/-- The inner content a Button renders, Button.tsx lines 71-99: a spinner
when loading, the icon when not loading on its configured side, and a span
whose text is loadingText when loading with a loadingText, otherwise the
children. -/
structure ButtonContent where
spinner : Bool
leftIcon : Bool
spanText : String
rightIcon : Bool
deriving DecidableEq

/-- Content computation of Button.tsx lines 71-99. -/
def buttonContent (p : ButtonProps) (children : String) : ButtonContent :=
{ spinner := p.loading
, leftIcon := !p.loading && p.hasIcon && p.iconPosition = IconPosition.left
, spanText := if p.loading && strTruthy p.loadingText then p.loadingText.getD children else children
, rightIcon := !p.loading && p.hasIcon && p.iconPosition = IconPosition.right }

/-- The element a Button render produces: an anchor when href is truthy
(Button.tsx lines 101-113, carrying href, target and rel and no disabled
attribute), else a button carrying disabled = disabled OR loading
(Button.tsx lines 115-124). -/
inductive RenderedButton
| anchor (href : String) (target : Option String) (rel : Option String)
    (className : String) (content : ButtonContent)
| button (disabled : Bool) (className : String) (content : ButtonContent)
deriving DecidableEq

/-- Render function of the Button component body, Button.tsx lines 67-124. -/
def renderButton (p : ButtonProps) (children : String) : RenderedButton :=
if strTruthy p.href then
  RenderedButton.anchor (p.href.getD "") p.target p.rel
    (buttonVariants p.variant p.size p.width p.className)
    (buttonContent p children)
else
  RenderedButton.button (p.disabled || p.loading)
    (buttonVariants p.variant p.size p.width p.className)
    (buttonContent p children)

/-- The two element kinds of the ElementPolymorphismResolver. -/
inductive ElementKind
| navigable
| actionable
deriving DecidableEq

/-- Element kind of a rendered Button: an anchor is Navigable, a button is
Actionable. -/
def elementKind : RenderedButton → ElementKind
| .anchor _ _ _ _ _ => ElementKind.navigable
| .button _ _ _ => ElementKind.actionable

/-- Whether the rendered element suppresses interaction: a rendered button
does when its disabled attribute is set; a rendered anchor receives no
disabled attribute at all in Button.tsx lines 101-113. -/
def interactionSuppressed : RenderedButton → Bool
| .anchor _ _ _ _ _ => false
| .button d _ _ => d

/-- Claim C4: the element-polymorphism resolution yields Navigable exactly
when a destination address is present (a truthy href), and Actionable
otherwise; when Navigable, the rendered element is an anchor carrying the
href, target and rel of the configuration; and no configuration field
other than the presence of the href participates in the decision, stated
as: any two configurations agreeing on href truthiness resolve to the same
element kind. -/
theorem elementKind_href_sole_discriminant :
    (∀ p ch, elementKind (renderButton p ch) = ElementKind.navigable
        ↔ strTruthy p.href = true)
  ∧ (∀ p ch, strTruthy p.href = true →
        renderButton p ch = RenderedButton.anchor (p.href.getD "") p.target p.rel
          (buttonVariants p.variant p.size p.width p.className) (buttonContent p ch))
  ∧ (∀ p q ch ch', strTruthy p.href = strTruthy q.href →
        elementKind (renderButton p ch) = elementKind (renderButton q ch')) := by
  refine ⟨?_, ?_, ?_⟩
  · intro p ch
    cases h : strTruthy p.href <;> simp [renderButton, h, elementKind]
  · intro p ch h
    simp [renderButton, h]
  · intro p q ch ch' h
    cases hp : strTruthy p.href <;> cases hq : strTruthy q.href <;>
      simp_all [renderButton, elementKind]

/-- Claim C10: resolving a configuration whose href is the empty string
yields an Actionable button element, exactly as an absent href does, while
a non-empty href yields a Navigable anchor: presence of the destination
address is decided by string truthiness. -/
theorem elementKind_emptyHref_actionable :
    elementKind (renderButton { href := some "" } "Go") = ElementKind.actionable
  ∧ elementKind (renderButton { href := none } "Go") = ElementKind.actionable
  ∧ elementKind (renderButton { href := some "/about" } "Go") = ElementKind.navigable
  ∧ strTruthy (some "") = strTruthy none := ⟨rfl, rfl, rfl, rfl⟩

/-- Claim C5, counterexample: a loading Navigable configuration is not
rendered disabled — the anchor branch attaches no disabled behavior even
though loading is set and the caller did not set disabled — and the
visible label is not replaced: with no loadingText the span still shows
the children next to the spinner. -/
theorem loading_anchor_not_disabled_cex :
    interactionSuppressed (renderButton { href := some "/checkout", loading := true } "Pay") = false
  ∧ elementKind (renderButton { href := some "/checkout", loading := true } "Pay") = ElementKind.navigable
  ∧ (buttonContent { href := some "/checkout", loading := true } "Pay").spanText = "Pay" := by
  refine ⟨rfl, rfl, rfl⟩

/-- Claim C5 (amended): with loading = true, the Actionable kind (falsy
href) renders a button whose disabled attribute is set even when the
caller did not set disabled, while the Navigable kind attaches no disabled
behavior; the content gains a spinner and hides any icon, and the span
text is replaced by loadingText only when a truthy loadingText is
supplied, otherwise the children remain visible. -/
theorem loading_forces_disabled_button (p : ButtonProps) (ch : String)
    (h1 : p.loading = true) :
    (strTruthy p.href = false → interactionSuppressed (renderButton p ch) = true)
  ∧ (strTruthy p.href = true → interactionSuppressed (renderButton p ch) = false)
  ∧ (buttonContent p ch).spinner = true
  ∧ (buttonContent p ch).leftIcon = false
  ∧ (buttonContent p ch).rightIcon = false
  ∧ (strTruthy p.loadingText = false → (buttonContent p ch).spanText = ch)
  ∧ (strTruthy p.loadingText = true → (buttonContent p ch).spanText = p.loadingText.getD ch) := by
  refine ⟨?_, ?_, ?_, ?_, ?_, ?_, ?_⟩
  · intro h2
    simp [renderButton, h2, interactionSuppressed, h1]
  · intro h2
    simp [renderButton, h2, interactionSuppressed]
  · simp [buttonContent, h1]
  · simp [buttonContent, h1]
  · simp [buttonContent, h1]
  · intro h2
    simp [buttonContent, h1, h2]
  · intro h2
    simp [buttonContent, h1, h2]

/-- Witness for the amended claim C5 at a loading Actionable configuration
with no disabled flag and no loadingText. -/
theorem loading_forces_disabled_button_witness :
    (strTruthy ({ loading := true } : ButtonProps).href = false →
        interactionSuppressed (renderButton { loading := true } "Save") = true)
  ∧ (strTruthy ({ loading := true } : ButtonProps).href = true →
        interactionSuppressed (renderButton { loading := true } "Save") = false)
  ∧ (buttonContent { loading := true } "Save").spinner = true
  ∧ (buttonContent { loading := true } "Save").leftIcon = false
  ∧ (buttonContent { loading := true } "Save").rightIcon = false
  ∧ (strTruthy ({ loading := true } : ButtonProps).loadingText = false →
        (buttonContent { loading := true } "Save").spanText = "Save")
  ∧ (strTruthy ({ loading := true } : ButtonProps).loadingText = true →
        (buttonContent { loading := true } "Save").spanText = (({ loading := true } : ButtonProps).loadingText.getD "Save")) :=
loading_forces_disabled_button { loading := true } "Save" rfl

/-- Claim C8: resolving with a dimension omitted yields the same class
string as resolving with that dimension explicitly set to its declared
default from defaultVariants: variant primary, size default, width auto. -/
theorem buttonVariants_default_equivalence :
    ∀ (v : Option Variant) (s : Option Size) (w : Option Width) (c : Option String),
      buttonVariants none s w c = buttonVariants (some Variant.primary) s w c
    ∧ buttonVariants v none w c = buttonVariants v (some Size.default) w c
    ∧ buttonVariants v s none c = buttonVariants v s (some Width.auto) c :=
fun _ _ _ _ => ⟨rfl, rfl, rfl⟩

/-!
ActionButtons container composition (src/unnamed/part_000 lines 62-111)
and the ActionButton icon rendering (src/unnamed/part_000 lines 140-162).
-/

/-- Layout direction of ActionButtons, default horizontal. -/
inductive Direction
| horizontal
| vertical
deriving DecidableEq

/-- Alignment of ActionButtons, default center. -/
inductive Align
| start
| center
| end_
| stretch
deriving DecidableEq

/-- Gap of ActionButtons, default md. -/
inductive Gap
| sm
| md
| lg
deriving DecidableEq

/-- Container width of ActionButtons, default auto. -/
inductive ContainerWidth
| auto
| full
deriving DecidableEq

/-- Responsive mobile behavior of ActionButtons. -/
inductive Mobile
| stack
| scroll
| wrap
deriving DecidableEq

/-- Gap class table, part_000 lines 73-77. -/
def gapClasses : Gap → String
| .sm => "gap-2"
| .md => "gap-4"
| .lg => "gap-6"

/-- Alignment class table, part_000 lines 79-84. -/
def alignClasses : Align → String
| .start => "justify-start items-start"
| .center => "justify-center items-center"
| .end_ => "justify-end items-end"
| .stretch => "justify-stretch items-stretch"

/-- The ordered fragments contributed to the cn call of part_000 lines
86-101: the flex base, the gap and align fragments, then each conditional
entry of the clsx object exactly when its condition holds, then the caller
className. The responsive tablet key of the props is never read by this
computation and is omitted. -/
def containerFragments (direction : Direction) (align : Align) (gap : Gap)
    (width : ContainerWidth) (mobile : Option Mobile)
    (className : Option String) : List String :=
["flex", gapClasses gap, alignClasses align]
++ (if direction = Direction.vertical then ["flex-col"] else [])
++ (if direction = Direction.horizontal then ["flex-row"] else [])
++ (if width = ContainerWidth.full then ["w-full"] else [])
++ (if width = ContainerWidth.auto then ["w-auto"] else [])
++ (if mobile = some Mobile.stack ∧ direction = Direction.horizontal then ["flex-col sm:flex-row"] else [])
++ (if mobile = some Mobile.wrap then ["flex-row flex-wrap"] else [])
++ (if mobile = some Mobile.scroll then ["flex-row overflow-x-auto"] else [])
++ className.toList

/-- The composed container class string of ActionButtons. -/
def containerClasses (direction : Direction) (align : Align) (gap : Gap)
    (width : ContainerWidth) (mobile : Option Mobile)
    (className : Option String) : String :=
cn (containerFragments direction align gap width mobile className)

/-- Claim C6: over every responsive configuration without a caller
className, the stack fragment is contributed to the class list exactly
when the mobile behavior is stack and the direction is horizontal, while
the wrap and scroll fragments are contributed exactly when selected,
regardless of direction. -/
theorem responsive_fragment_contribution :
    ∀ (direction : Direction) (align : Align) (gap : Gap)
      (width : ContainerWidth) (mobile : Option Mobile),
      ("flex-col sm:flex-row" ∈ containerFragments direction align gap width mobile none
          ↔ (mobile = some Mobile.stack ∧ direction = Direction.horizontal))
    ∧ ("flex-row flex-wrap" ∈ containerFragments direction align gap width mobile none
          ↔ mobile = some Mobile.wrap)
    ∧ ("flex-row overflow-x-auto" ∈ containerFragments direction align gap width mobile none
          ↔ mobile = some Mobile.scroll) := by
  intro direction align gap width mobile
  rcases mobile with _ | m
  · cases direction <;> cases align <;> cases gap <;> cases width <;> decide
  · cases m <;> cases direction <;> cases align <;> cases gap <;> cases width <;> decide

/-- Icon descriptor of an ActionButtonConfig, part_000 lines 18-25: src and
alt are required by the static type, the rest optional. -/
structure IconConfig where
src : String
alt : String
width : Option Nat := none
height : Option Nat := none
position : Option String := none
className : Option String := none
deriving DecidableEq

/-- The attributes the Image element receives in part_000 lines 142-160. -/
structure RenderedImage where
src : String
alt : String
width : Nat
height : Nat
className : String
deriving DecidableEq

/-- Image attribute computation of part_000 lines 143-149 and 153-159:
src and alt pass through, width and height fall back to 20 under the
JavaScript OR, and the className is merged after "flex-shrink-0". -/
def renderIcon (ic : IconConfig) : RenderedImage :=
{ src := ic.src
, alt := ic.alt
, width := jsOrNat ic.width 20
, height := jsOrNat ic.height 20
, className := cn ("flex-shrink-0" :: ic.className.toList) }

/-- The buttonContent fragment of ActionButton, part_000 lines 140-162: an
image left of the label when an icon is declared with position not equal
to right, the label span, and an image right of the label when the
position is right. -/
structure ActionButtonContent where
leftImage : Option RenderedImage
label : String
rightImage : Option RenderedImage
deriving DecidableEq

/-- Content computation of part_000 lines 140-162. -/
def actionButtonContent (icon : Option IconConfig) (label : String) : ActionButtonContent :=
{ leftImage :=
    match icon with
    | some ic => if ic.position ≠ some "right" then some (renderIcon ic) else none
    | none => none
, label := label
, rightImage :=
    match icon with
    | some ic => if ic.position = some "right" then some (renderIcon ic) else none
    | none => none }

/-- Claim C9, counterexample: with a declared icon whose src and alt are
both present but whose width and className are absent, the descriptor is
not passed through untouched: the rendered image carries the substituted
default width 20 and an augmented className; moreover no resolution path
of ActionButton raises any error, so the missing-field case cannot fail
with a ConfigError. -/
theorem icon_not_untouched_cex :
    (renderIcon { src := "/vercel.svg", alt := "Vercel logomark" }).width = 20
  ∧ ({ src := "/vercel.svg", alt := "Vercel logomark" } : IconConfig).width = none
  ∧ (renderIcon { src := "/vercel.svg", alt := "Vercel logomark" }).className = "flex-shrink-0"
  ∧ ({ src := "/vercel.svg", alt := "Vercel logomark" } : IconConfig).className = none := by
  refine ⟨rfl, rfl, by decide, rfl⟩

/-- Claim C9 (amended): configurations without an icon render no image; a
declared icon renders exactly one image, on the left unless its position
is right, whose src and alt are the descriptor fields passed through
unchanged, whose width and height fall back to 20 when absent or zero
under the JavaScript OR, and whose className is augmented with
flex-shrink-0; presence of src and alt is required only by the static
configuration type, and no runtime ConfigError exists in the resolution. -/
theorem icon_render_passthrough :
    ∀ (ic : IconConfig) (lbl : String),
      actionButtonContent none lbl = { leftImage := none, label := lbl, rightImage := none }
    ∧ (ic.position ≠ some "right" →
        actionButtonContent (some ic) lbl
          = { leftImage := some (renderIcon ic), label := lbl, rightImage := none })
    ∧ (ic.position = some "right" →
        actionButtonContent (some ic) lbl
          = { leftImage := none, label := lbl, rightImage := some (renderIcon ic) })
    ∧ (renderIcon ic).src = ic.src
    ∧ (renderIcon ic).alt = ic.alt
    ∧ (renderIcon ic).width = jsOrNat ic.width 20
    ∧ (renderIcon ic).height = jsOrNat ic.height 20 := by
  intro ic lbl
  refine ⟨rfl, ?_, ?_, rfl, rfl, rfl, rfl⟩
  · intro h
    simp [actionButtonContent, h]
  · intro h
    simp [actionButtonContent, h]

/-!
PageLayout composition (src/components/Layout/PageLayout.tsx lines
41-129). The lookups are keyed by plain strings, as the JavaScript object
accesses are: an unknown key yields undefined, embedded as none.
-/

/-- One entry of the layoutVariants table: container, main and footer
class strings, PageLayout.tsx lines 55-92. -/
structure LayoutDef where
container : String
main : String
footer : String
deriving DecidableEq

/-- The layoutVariants table, PageLayout.tsx lines 55-92. An unknown
variant name yields undefined. -/
def layoutVariants (v : String) : Option LayoutDef :=
if v = "default" then
  some { container := "grid grid-rows-[20px_1fr_20px] items-center justify-items-center min-h-screen p-8 pb-20 gap-16 sm:p-20"
       , main := "flex flex-col gap-[32px] row-start-2 items-center sm:items-start"
       , footer := "row-start-3" }
else if v = "landing" then
  some { container := "min-h-screen flex flex-col"
       , main := "flex-1 flex flex-col items-center justify-center px-4 sm:px-6 lg:px-8"
       , footer := "mt-auto" }
else if v = "app" then
  some { container := "min-h-screen grid grid-rows-[auto_1fr_auto]"
       , main := "container mx-auto px-4 sm:px-6 lg:px-8 py-8"
       , footer := "" }
else if v = "docs" then
  some { container := "min-h-screen grid grid-rows-[auto_1fr_auto]"
       , main := "container mx-auto px-4 sm:px-6 lg:px-8 py-8 max-w-4xl"
       , footer := "" }
else if v = "centered" then
  some { container := "min-h-screen flex flex-col items-center justify-center p-4"
       , main := "w-full max-w-md"
       , footer := "mt-8" }
else if v = "fullscreen" then
  some { container := "min-h-screen flex flex-col"
       , main := "flex-1"
       , footer := "" }
else none

/-- The maxWidthClasses table, PageLayout.tsx lines 94-102. An unknown
key yields undefined. -/
def maxWidthClasses (k : String) : Option String :=
if k = "sm" then some "max-w-sm"
else if k = "md" then some "max-w-md"
else if k = "lg" then some "max-w-lg"
else if k = "xl" then some "max-w-xl"
else if k = "2xl" then some "max-w-2xl"
else if k = "full" then some "max-w-full"
else if k = "none" then some ""
else none

/-- The backgroundVariants table, PageLayout.tsx lines 104-110. -/
def backgroundVariants (b : String) : Option String :=
if b = "default" then some ""
else if b = "gradient" then some "bg-gradient-to-br from-background via-background to-muted/20"
else if b = "grid" then some "bg-grid-pattern"
else if b = "dots" then some "bg-dots-pattern"
else if b = "none" then some ""
else none

/-- Container configuration of PageLayoutProps, lines 31-34. -/
structure ContainerConfig where
className : Option String := none
fluid : Bool := false
deriving DecidableEq

/-- Main content configuration of PageLayoutProps, lines 24-29. -/
structure MainConfig where
className : Option String := none
centered : Bool := false
maxWidth : Option String := none
padding : Option Bool := none
deriving DecidableEq

/-- The structural class triple a PageLayout resolution produces. -/
structure PageResolved where
containerClasses : String
mainClasses : String
footerClass : String
deriving DecidableEq

/-- The class resolution of the PageLayout body, lines 112-129. The source
reads layoutVariants[variant] and then accesses its properties, so an
unknown variant name makes the resolution fail (a property access on
undefined), embedded as none; there is no ConfigError anywhere. Undefined
fragments are dropped by cn, embedded by substituting the empty string. -/
def resolvePageLayout (variant : String) (background : String)
    (container : ContainerConfig) (main : MainConfig)
    (className : Option String) : Option PageResolved :=
match layoutVariants variant with
| none => none
| some layout =>
  some
  { containerClasses := cn
      [layout.container,
       (backgroundVariants background).getD "",
       "font-[family-name:var(--font-geist-sans)]",
       if container.fluid then "w-full" else "",
       container.className.getD "",
       className.getD ""]
  , mainClasses := cn
      [layout.main,
       main.className.getD "",
       if strTruthy main.maxWidth then (maxWidthClasses (main.maxWidth.getD "")).getD "" else "",
       if main.centered ∧ variant ≠ "centered" then "mx-auto" else "",
       if main.padding ≠ some false ∧ variant = "fullscreen" then "p-4 sm:p-6 lg:p-8" else ""]
  , footerClass := layout.footer }

/-- Claim C3, counterexample: the unknown max-width key "3xl" is not in
the table, yet the resolution succeeds without any error and yields
exactly the classes of the same configuration without the key: the
unknown value is silently ignored, not rejected with a ConfigError. -/
theorem unknown_maxWidth_ignored_cex :
    maxWidthClasses "3xl" = none
  ∧ (resolvePageLayout "default" "default" {} { maxWidth := some "3xl" } none).isSome = true
  ∧ resolvePageLayout "default" "default" {} { maxWidth := some "3xl" } none
      = resolvePageLayout "default" "default" {} {} none := by decide

/-- Claim C3 (amended): no ConfigError mechanism exists. An unknown layout
preset name makes the whole resolution fail, because the property access
on the undefined lookup result crashes, but nothing raises an error naming
the offending input; an unknown max-width key is silently ignored and the
resolution yields the same classes as with no max-width at all; unknown
variant-dimension values of the button table are not representable at
runtime checks either, the configuration types constrain them statically. -/
theorem configError_never_raised (v bg k : String) (c : ContainerConfig)
    (m : MainConfig) (cls : Option String)
    (hv : layoutVariants v = none) (hk : maxWidthClasses k = none) :
    resolvePageLayout v bg c m cls = none
  ∧ resolvePageLayout "default" bg c { m with maxWidth := some k } cls
      = resolvePageLayout "default" bg c { m with maxWidth := none } cls := by
  constructor
  · simp [resolvePageLayout, hv]
  · by_cases hk0 : k = ""
    · subst hk0
      simp [resolvePageLayout, layoutVariants, strTruthy]
    · simp [resolvePageLayout, layoutVariants, strTruthy, hk0, hk]

/-- Witness for the amended claim C3 at the unknown preset name "hero" and
the unknown max-width key "3xl". -/
theorem configError_never_raised_witness :
    resolvePageLayout "hero" "default" ⟨none, false⟩ ⟨none, false, none, none⟩ none = none
  ∧ resolvePageLayout "default" "default" ⟨none, false⟩ ⟨none, false, some "3xl", none⟩ none
      = resolvePageLayout "default" "default" ⟨none, false⟩ ⟨none, false, none, none⟩ none :=
configError_never_raised "hero" "default" "3xl" ⟨none, false⟩ ⟨none, false, none, none⟩ none
  (by decide) (by decide)
